import Mathlib

/-!
Shallow embedding of `src/SQL Query Converter Client Library/wire_client.c`.

The C file holds one piece of mutable state, `static char* server_url`,
modelled here as an `Option String` threaded explicitly through the
operations.  Network I/O is modelled by a `Transport` oracle (whether
`curl_easy_init` succeeds, the response chunks the transport delivers to
the write callback, and whether `curl_easy_perform` returns `CURLE_OK`)
together with an explicit trace of the HTTP requests issued.
-/

/-- Embeds `struct MemoryStruct` of wire_client.c: a growable byte buffer
(`char* memory`) plus its current length (`size_t size`). -/
structure MemoryStruct where
  memory : String
  size : Nat
  deriving Repr, DecidableEq

/-- Embeds `WriteMemoryCallback` of wire_client.c.  `contents` is the chunk
curl hands over (curl passes exactly `size * nmemb` bytes; the byte count
is `realsize = size * nmemb`).  `allocOk` models the `realloc` outcome: on
failure the source returns `0` and leaves the buffer untouched; on success
it appends the chunk bytes, bumps `size`, and returns `realsize`. -/
def WriteMemoryCallback (contents : String) (size nmemb : Nat) (allocOk : Bool)
    (mem : MemoryStruct) : MemoryStruct × Nat :=
  let realsize := size * nmemb
  if allocOk then
    ({ memory := mem.memory ++ contents, size := mem.size + realsize }, realsize)
  else
    (mem, 0)

/-- Delivery of a list of response chunks, in order, to the sink callback,
starting from the buffer `execute_query` initialises (`malloc(1)` of an
empty string, `size = 0`).  curl invokes the callback with `size = 1` and
`nmemb` the byte count of the chunk; allocation is assumed to succeed for
a completed delivery. -/
def deliverChunks (chunks : List String) : MemoryStruct :=
  chunks.foldl (fun mem c => (WriteMemoryCallback c 1 c.length true mem).1)
    { memory := "", size := 0 }

/-- Embeds `initialize_connection` of wire_client.c.  Takes the `url`
argument (`none` models a NULL pointer) and the current `server_url`
state; returns the C `int` result together with the new state.  A NULL
url yields `-1` and leaves the state untouched; otherwise `strdup(url)`
is stored (replacing, without freeing, any prior value) and `0` is
returned. -/
def initialize_connection (url : Option String) (server_url : Option String) :
    Int × Option String :=
  match url with
  | none => (-1, server_url)
  | some u => (0, some u)

/-- Embeds `close_connection` of wire_client.c: if `server_url` is set it is
freed and reset to NULL; otherwise nothing happens.  Either way the
resulting state is unset. -/
def close_connection (server_url : Option String) : Option String :=
  match server_url with
  | some _ => none
  | none => none

/-- One HTTP request as configured on the curl easy handle by
`execute_query`: method (CURLOPT_POST), target URL (CURLOPT_URL), header
list (CURLOPT_HTTPHEADER) and body (CURLOPT_POSTFIELDS). -/
structure Request where
  method : String
  url : String
  headers : List String
  body : String
  deriving Repr, DecidableEq

/-- Oracle for the external transport during one `execute_query` call:
whether `curl_easy_init` returns a handle, the response chunks delivered
to the write callback, and whether `curl_easy_perform` returns
`CURLE_OK`. -/
structure Transport where
  curl_ok : Bool
  chunks : List String
  res_ok : Bool

/-- The observable outcome of one `execute_query` call: the returned
`char*` (`none` models NULL), the trace of HTTP requests issued, and the
`server_url` state after the call. -/
structure ExecResult where
  result : Option String
  requests : List Request
  finalUrl : Option String
  deriving DecidableEq

/-- Embeds the `sprintf(post_data, ...)` line of `execute_query`: the body
is the literal JSON-shaped wrapper around the raw, unescaped query. -/
def buildPostData (query : String) : String :=
  "\x7b\"query\": \"" ++ query ++ "\"\x7d"

/-- `char post_data[1024]` in `execute_query`: the fixed size of the
stack buffer `sprintf` writes the body (plus NUL terminator) into. -/
def postDataBufSize : Nat := 1024

/-- Embeds `execute_query` of wire_client.c.  If `server_url` is NULL or
`query` is NULL it returns NULL at once, before any transport call.
Otherwise it initialises an empty accumulation buffer; if
`curl_easy_init` succeeds it builds `full_url = server_url ++
"/execute_query"`, posts `buildPostData query` with the JSON content-type
header, lets the transport deliver its chunks to the callback, and logs
(without acting on) a non-OK `curl_easy_perform` result; it finally
returns `chunk.memory` regardless of the transport outcome.  The
`server_url` state is never written. -/
def execute_query (server_url : Option String) (query : Option String)
    (tr : Transport) : ExecResult :=
  match server_url, query with
  | some u, some q =>
    if tr.curl_ok then
      { result := some (deliverChunks tr.chunks).memory
        requests := [{ method := "POST"
                       url := u ++ "/execute_query"
                       headers := ["Content-Type: application/json"]
                       body := buildPostData q }]
        finalUrl := some u }
    else
      { result := some "", requests := [], finalUrl := some u }
  | _, _ => { result := none, requests := [], finalUrl := server_url }

/-- Hexadecimal digit test, as in RFC 8259's `\uXXXX` escape. -/
def isHexDigit (c : Char) : Bool :=
  c.isDigit || ('a' ≤ c && c ≤ 'f') || ('A' ≤ c && c ≤ 'F')

/-- Consumes the contents of an RFC 8259 JSON string after its opening
quote; returns the characters after the closing quote, or `none` if the
contents are not a well-formed JSON string (stray backslash escape,
unescaped control character, or missing closing quote). -/
def jsonStringRest : List Char → Option (List Char)
  | [] => none
  | '"' :: cs => some cs
  | '\\' :: '"' :: cs => jsonStringRest cs
  | '\\' :: '\\' :: cs => jsonStringRest cs
  | '\\' :: '/' :: cs => jsonStringRest cs
  | '\\' :: 'b' :: cs => jsonStringRest cs
  | '\\' :: 'f' :: cs => jsonStringRest cs
  | '\\' :: 'n' :: cs => jsonStringRest cs
  | '\\' :: 'r' :: cs => jsonStringRest cs
  | '\\' :: 't' :: cs => jsonStringRest cs
  | '\\' :: 'u' :: h1 :: h2 :: h3 :: h4 :: cs =>
    if isHexDigit h1 && isHexDigit h2 && isHexDigit h3 && isHexDigit h4 then
      jsonStringRest cs
    else none
  | '\\' :: _ => none
  | c :: cs => if c.toNat < 32 then none else jsonStringRest cs

/-- Checks that `s` is a well-formed RFC 8259 JSON document of the exact
shape the wire protocol intends: an object with the single key `query`
whose value is a well-formed JSON string (the shape `buildPostData`
aims to produce). -/
def isJsonQueryObject (s : String) : Bool :=
  match s.data with
  | '\x7b' :: '"' :: 'q' :: 'u' :: 'e' :: 'r' :: 'y' :: '"' :: ':' :: ' ' :: '"' :: rest =>
    jsonStringRest rest == some ['\x7d']
  | _ => false

/- ### Helper lemmas -/

lemma deliverChunks_go (chunks : List String) (mem : MemoryStruct) :
    chunks.foldl (fun mem c => (WriteMemoryCallback c 1 c.length true mem).1) mem
      = { memory := chunks.foldl (fun s c => s ++ c) mem.memory
          size := chunks.foldl (fun n c => n + c.length) mem.size } := by
  induction chunks generalizing mem with
  | nil => rfl
  | cons c cs ih =>
    simp only [List.foldl_cons]
    rw [ih]
    simp [WriteMemoryCallback]

lemma length_foldl_append (l : List String) (s : String) :
    (l.foldl (fun a b => a ++ b) s).length
      = l.foldl (fun n c => n + c.length) s.length := by
  induction l generalizing s with
  | nil => rfl
  | cons c cs ih =>
    simp only [List.foldl_cons]
    rw [ih, String.length_append]

lemma deliverChunks_memory (chunks : List String) :
    (deliverChunks chunks).memory = String.join chunks := by
  rw [deliverChunks, deliverChunks_go]
  rfl

lemma deliverChunks_size (chunks : List String) :
    (deliverChunks chunks).size = (String.join chunks).length := by
  rw [deliverChunks, deliverChunks_go, String.join]
  exact (length_foldl_append chunks "").symm

/- ### Claim theorems -/

/-- C1: `execute_query` with the base URL unset (never initialised, or after
`close_connection`) or with a NULL query returns NULL and issues no HTTP
request; after `close_connection` a subsequent `execute_query` behaves
identically to the never-initialised case. -/
theorem execute_query_precondition_failures (st q : Option String) (tr : Transport) :
    (execute_query none q tr).result = none
  ∧ (execute_query none q tr).requests = []
  ∧ (execute_query st none tr).result = none
  ∧ (execute_query st none tr).requests = []
  ∧ execute_query (close_connection st) q tr = execute_query none q tr := by
  rcases st with _ | u <;> rcases q with _ | q <;>
    exact ⟨rfl, rfl, rfl, rfl, rfl⟩

/-- C2: with a stored base URL `u` and a non-NULL query, `execute_query`
issues exactly one POST, whose target URL is exactly `u` followed by
`/execute_query`, with the JSON content-type header and the built body. -/
theorem execute_query_target_url (u q : String) (chunks : List String) (r : Bool) :
    (execute_query (some u) (some q) ⟨true, chunks, r⟩).requests
      = [{ method := "POST"
           url := u ++ "/execute_query"
           headers := ["Content-Type: application/json"]
           body := buildPostData q }] := rfl

/-- C4: delivering a finite sequence of response chunks in order to the sink
callback yields exactly their in-order concatenation, complete and nothing
more, which is what `execute_query` returns; for chunks
`["ab", "cd", "ef"]` the buffer is `"abcdef"` with length 6. -/
theorem response_accumulation (chunks : List String) :
    (deliverChunks chunks).memory = String.join chunks
  ∧ (deliverChunks chunks).size = (String.join chunks).length
  ∧ (∀ (u q : String) (r : Bool),
      (execute_query (some u) (some q) ⟨true, chunks, r⟩).result
        = some (String.join chunks))
  ∧ (deliverChunks ["ab", "cd", "ef"]).memory = "abcdef"
  ∧ (deliverChunks ["ab", "cd", "ef"]).size = 6 := by
  refine ⟨deliverChunks_memory chunks, deliverChunks_size chunks, ?_, by decide, by decide⟩
  intro u q r
  show some (deliverChunks chunks).memory = some (String.join chunks)
  rw [deliverChunks_memory]

/-- C5: with an initialised base URL and non-NULL query, a transport-level
failure (`curl_easy_perform` not `CURLE_OK`) still yields a non-NULL
buffer holding exactly the bytes accumulated before the failure; the
result is NULL exactly when the preconditions fail, never to signal a
transport error. -/
theorem execute_query_transport_failure (u q : String) (chunks : List String) :
    (execute_query (some u) (some q) ⟨true, chunks, false⟩).result
      = some (String.join chunks)
  ∧ ∀ (st q2 : Option String) (tr : Transport),
      ((execute_query st q2 tr).result = none ↔ (st = none ∨ q2 = none)) := by
  constructor
  · show some (deliverChunks chunks).memory = some (String.join chunks)
    rw [deliverChunks_memory]
  · intro st q2 tr
    rcases st with _ | u2 <;> rcases q2 with _ | v <;> simp [execute_query]
    cases h : tr.curl_ok <;> simp

/-- C6: `initialize_connection` with a NULL url returns a non-zero code and
leaves the state unchanged; with a non-NULL url it stores a copy as the
base URL, replacing any prior value (after initialising `u1` then `u2`
the stored URL is `u2`), and returns 0. -/
theorem initialize_connection_spec (st : Option String) (u u1 u2 : String) :
    (initialize_connection none st).1 ≠ 0
  ∧ (initialize_connection none st).2 = st
  ∧ initialize_connection (some u) st = (0, some u)
  ∧ initialize_connection (some u2) (initialize_connection (some u1) st).2
      = (0, some u2) := by
  refine ⟨?_, rfl, rfl, rfl⟩
  show (-1 : Int) ≠ 0
  decide

/-- C7: `close_connection` always lands in the unset state: calling it when
already unset is a no-op, and the state after one call equals the state
after two consecutive calls. -/
theorem close_connection_idempotent (st : Option String) :
    close_connection (close_connection st) = close_connection st
  ∧ close_connection none = none
  ∧ close_connection st = none := by
  rcases st with _ | u <;> exact ⟨rfl, rfl, rfl⟩

/-- C8: the body `sprintf` writes into the fixed 1024-byte `post_data`
buffer is the wrapped query of length `query + 13`; with the NUL
terminator it fits within the buffer exactly when the query is at most
1010 bytes, and exceeds it for any longer query. -/
theorem post_data_buffer_bound (q : String) :
    buildPostData q = "\x7b\"query\": \"" ++ q ++ "\"\x7d"
  ∧ (buildPostData q).length = q.length + 13
  ∧ ((buildPostData q).length + 1 ≤ postDataBufSize ↔ q.length ≤ 1010) := by
  have hlen : (buildPostData q).length = q.length + 13 := by
    have h1 : ("\x7b\"query\": \"" : String).length = 11 := rfl
    have h2 : ("\"\x7d" : String).length = 2 := rfl
    rw [buildPostData, String.length_append, String.length_append, h1, h2]
    omega
  refine ⟨rfl, hlen, ?_⟩
  rw [hlen, postDataBufSize]
  omega

/-- C9: `initialize_connection` accepts the empty string: only NULL is
rejected, so it returns 0 and stores `""`, after which `execute_query`
posts to the URL `/execute_query` rather than failing a precondition. -/
theorem empty_url_accepted (st : Option String) (q : String) (chunks : List String) (r : Bool) :
    initialize_connection (some "") st = (0, some "")
  ∧ (execute_query (some "") (some q) ⟨true, chunks, r⟩).requests
      = [{ method := "POST"
           url := "/execute_query"
           headers := ["Content-Type: application/json"]
           body := buildPostData q }]
  ∧ (execute_query (some "") (some q) ⟨true, chunks, r⟩).result
      = some (String.join chunks) := by
  refine ⟨rfl, rfl, ?_⟩
  show some (deliverChunks chunks).memory = some (String.join chunks)
  rw [deliverChunks_memory]

/-- C10: `execute_query` never modifies the connection state: whatever the
state, query and transport outcome, the stored base URL after the call is
identical to the one before. -/
theorem execute_query_preserves_state (st q : Option String) (tr : Transport) :
    (execute_query st q tr).finalUrl = st := by
  rcases st with _ | u <;> rcases q with _ | v
  · rfl
  · rfl
  · rfl
  · rcases tr with ⟨co, ch, ro⟩
    cases co <;> rfl

/-- C3 (counterexample): the claim that every query containing a
double-quote or backslash yields malformed JSON is false: the two-byte
query backslash-quote contains both, yet its raw insertion accidentally
forms the valid JSON escape sequence, so the body is a well-formed JSON
query object. -/
theorem raw_query_valid_json_counterexample :
    ('"' ∈ ("\\\"" : String).data)
  ∧ ('\\' ∈ ("\\\"" : String).data)
  ∧ isJsonQueryObject (buildPostData "\\\"") = true := by decide

/-- C3 (amended): the body posted by `execute_query` is exactly the wrapper
around the raw, unescaped query; for `SELECT 1` it is exactly the
expected JSON object; and a query containing a double-quote, or one
containing a backslash, can yield malformed JSON (a lone double-quote or
a lone backslash does). -/
theorem request_body_raw_query (u q : String) (chunks : List String) (r : Bool) :
    (execute_query (some u) (some q) ⟨true, chunks, r⟩).requests.map Request.body
      = [buildPostData q]
  ∧ buildPostData q = "\x7b\"query\": \"" ++ q ++ "\"\x7d"
  ∧ buildPostData "SELECT 1" = "\x7b\"query\": \"SELECT 1\"\x7d"
  ∧ isJsonQueryObject (buildPostData "\"") = false
  ∧ isJsonQueryObject (buildPostData "\\") = false :=
  ⟨rfl, rfl, by decide, by decide, by decide⟩
